import Mathlib

/-!
Verification of the claude-code-adapter CLI-process streaming bridge.

This file gives a shallow embedding of the adapter's core components:

* the SSE protocol translator of `handleStreaming` in src/adapter.ts
  (main loop and the catch/retry loop), including the synthetic envelope
  of `sendSyntheticStream`;
* the retry/accumulation loop of `handleNonStreaming`;
* the session store of src/session-store.ts (`get`, `set`, `remove`);
* the route handler orchestration of `messagesHandler` in src/server.ts
  (session lookup, turn, store update, catch path);
* the environment sanitization and the exit-code check of
  `invokeClaudeCLI` in src/claude-cli.ts;
* the two-phase stream/drain line logic of `invokeClaudeCLI` (raw byte
  buffer vs readline loop vs drain phase).

JavaScript truthiness on optional strings is modelled explicitly
(`jsOrStr`, `jsOrOpt`, `jsTruthy`): `undefined` and the empty string are
both falsy.
-/

namespace CCAdapter

/-- Payload of a content_block_delta event: a text delta, some other delta
kind (for example input_json_delta), or a missing delta field. -/
inductive DeltaPayload
  | textDelta (text : String)
  | otherDelta
  | noDelta
deriving DecidableEq, Repr

/-- The nested protocol event carried by a stream_event record.
For content_block_start, `isToolUse` records whether `event.content_block`
is present with type tool_use (the only case the translator suppresses). -/
inductive SSEvent
  | messageStart
  | contentBlockStart (index : Option Nat) (isToolUse : Bool)
  | contentBlockDelta (index : Option Nat) (delta : DeltaPayload)
  | contentBlockStop (index : Option Nat)
  | messageDelta
  | messageStop
  | ping
  | otherEvent
deriving DecidableEq, Repr

/-- A decoded JSON record read from the CLI subprocess stdout, as consumed
by the adapter: a stream_event (session_id, parent_tool_use_id, nested
event), the terminal result record (session_id, optional result text), or
any other record type (system and similar), which the adapter ignores. -/
inductive CLIRecord
  | streamEvent (sessionId : Option String) (parentToolUseId : Option String) (event : SSEvent)
  | result (sessionId : Option String) (result : Option String)
  | otherRecord
deriving DecidableEq, Repr

/-- An outbound SSE frame written by the adapter. Forwarded
content_block frames carry the source event data verbatim; message_start
carries the message identifier the adapter writes into it. -/
inductive Frame
  | messageStart (id : String)
  | contentBlockStart (index : Option Nat) (isToolUse : Bool)
  | contentBlockDelta (index : Option Nat) (delta : DeltaPayload)
  | contentBlockStop (index : Option Nat)
  | messageDelta
  | messageStop
  | ping
deriving DecidableEq, Repr

/-- JavaScript `a || b` for an optional string `a` and a string `b`:
`undefined` and `""` are falsy. -/
def jsOrStr : Option String → String → String
  | some s, b => if s = "" then b else s
  | none, b => b

/-- JavaScript `a || b` for two optional strings: used for
`session_id || capturedSessionId`. -/
def jsOrOpt : Option String → Option String → Option String
  | some s, b => if s = "" then b else some s
  | none, b => b

/-- JavaScript truthiness of an optional string. -/
def jsTruthy : Option String → Bool
  | some s => s ≠ ""
  | none => false

/-- The mutable locals of `handleStreaming` that drive translation:
sentMessageStart, contentBlockIndex, hasOpenBlock, resultText and
capturedSessionId. -/
structure TransState where
  sentMessageStart : Bool
  contentBlockIndex : Nat
  hasOpenBlock : Bool
  resultText : String
  capturedSessionId : Option String
deriving DecidableEq, Repr

/-- Initial translator state of a fresh `handleStreaming` call. -/
def initState : TransState :=
  { sentMessageStart := false
    contentBlockIndex := 0
    hasOpenBlock := false
    resultText := ""
    capturedSessionId := none }

/-- The six frames emitted by `sendSyntheticStream(res, msgId, model, text)`. -/
def syntheticFrames (msgId : String) (text : String) : List Frame :=
  [Frame.messageStart msgId,
   Frame.contentBlockStart (some 0) false,
   Frame.contentBlockDelta (some 0) (DeltaPayload.textDelta text),
   Frame.contentBlockStop (some 0),
   Frame.messageDelta,
   Frame.messageStop]

/-- One iteration of the main `for await` loop of `handleStreaming`:
given the current state and one CLI record, produce the next state and
the frames sent for that record. -/
def stepMain (msgId : String) (st : TransState) : CLIRecord → TransState × List Frame
  | CLIRecord.streamEvent sid parent ev =>
    let st1 := { st with capturedSessionId := jsOrOpt sid st.capturedSessionId }
    if parent.isSome then (st1, [])
    else
      match ev with
      | SSEvent.messageStart =>
          if st1.sentMessageStart then (st1, [])
          else ({ st1 with sentMessageStart := true }, [Frame.messageStart msgId])
      | SSEvent.contentBlockStart idx isToolUse =>
          if !st1.sentMessageStart then (st1, [])
          else if isToolUse then (st1, [])
          else ({ st1 with hasOpenBlock := true,
                           contentBlockIndex := (idx.getD st1.contentBlockIndex) + 1 },
                [Frame.contentBlockStart idx isToolUse])
      | SSEvent.contentBlockDelta idx d =>
          if !st1.sentMessageStart then (st1, [])
          else
            match d with
            | DeltaPayload.otherDelta => (st1, [])
            | DeltaPayload.textDelta t =>
                ({ st1 with resultText := st1.resultText ++ t },
                 [Frame.contentBlockDelta idx (DeltaPayload.textDelta t)])
            | DeltaPayload.noDelta => (st1, [Frame.contentBlockDelta idx DeltaPayload.noDelta])
      | SSEvent.contentBlockStop idx =>
          if !st1.sentMessageStart || !st1.hasOpenBlock then (st1, [])
          else ({ st1 with hasOpenBlock := false }, [Frame.contentBlockStop idx])
      | SSEvent.messageDelta => (st1, [])
      | SSEvent.messageStop => (st1, [])
      | SSEvent.ping => (st1, [Frame.ping])
      | SSEvent.otherEvent => (st1, [])
  | CLIRecord.result sid resText =>
    let st1 := { st with
                   capturedSessionId := jsOrOpt sid st.capturedSessionId,
                   resultText := jsOrStr resText st.resultText }
    if !st1.sentMessageStart then
      (st1, syntheticFrames msgId st1.resultText)
    else
      let closeFrames :=
        if st1.hasOpenBlock
        then [Frame.contentBlockStop (some (st1.contentBlockIndex - 1))]
        else []
      (st1, closeFrames ++ [Frame.messageDelta, Frame.messageStop])
  | CLIRecord.otherRecord => (st, [])

/-- Run the main `handleStreaming` loop over a record list, collecting
the final state and all frames, in order. -/
def runMain (msgId : String) : TransState → List CLIRecord → TransState × List Frame
  | st, [] => (st, [])
  | st, r :: rest =>
    let p := stepMain msgId st r
    let q := runMain msgId p.1 rest
    (q.1, p.2 ++ q.2)

/-- All outbound frames of a fresh `handleStreaming` main loop on a
record sequence. -/
def streamFrames (msgId : String) (recs : List CLIRecord) : List Frame :=
  (runMain msgId initState recs).2

/-- One iteration of the catch-retry loop of `handleStreaming` (the loop
at the bottom of the catch block). It differs from the main loop: ping is
not forwarded, contentBlockIndex is not tracked, the synthetic path sets
sentMessageStart, and the close-stop uses index 0. -/
def stepRetry (msgId : String) (st : TransState) : CLIRecord → TransState × List Frame
  | CLIRecord.streamEvent sid parent ev =>
    let st1 := { st with capturedSessionId := jsOrOpt sid st.capturedSessionId }
    if parent.isSome then (st1, [])
    else
      match ev with
      | SSEvent.messageStart =>
          if st1.sentMessageStart then (st1, [])
          else ({ st1 with sentMessageStart := true }, [Frame.messageStart msgId])
      | SSEvent.contentBlockStart idx isToolUse =>
          if !st1.sentMessageStart then (st1, [])
          else if isToolUse then (st1, [])
          else ({ st1 with hasOpenBlock := true }, [Frame.contentBlockStart idx isToolUse])
      | SSEvent.contentBlockDelta idx d =>
          if !st1.sentMessageStart then (st1, [])
          else
            match d with
            | DeltaPayload.otherDelta => (st1, [])
            | DeltaPayload.textDelta t =>
                ({ st1 with resultText := st1.resultText ++ t },
                 [Frame.contentBlockDelta idx (DeltaPayload.textDelta t)])
            | DeltaPayload.noDelta => (st1, [Frame.contentBlockDelta idx DeltaPayload.noDelta])
      | SSEvent.contentBlockStop idx =>
          if st1.sentMessageStart && st1.hasOpenBlock
          then ({ st1 with hasOpenBlock := false }, [Frame.contentBlockStop idx])
          else (st1, [])
      | _ => (st1, [])
  | CLIRecord.result sid resText =>
    let st1 := { st with
                   capturedSessionId := jsOrOpt sid st.capturedSessionId,
                   resultText := jsOrStr resText st.resultText }
    if !st1.sentMessageStart then
      ({ st1 with sentMessageStart := true }, syntheticFrames msgId st1.resultText)
    else
      let closeFrames :=
        if st1.hasOpenBlock then [Frame.contentBlockStop (some 0)] else []
      (st1, closeFrames ++ [Frame.messageDelta, Frame.messageStop])
  | CLIRecord.otherRecord => (st, [])

/-- Run the catch-retry loop over a record list. -/
def runRetry (msgId : String) : TransState → List CLIRecord → TransState × List Frame
  | st, [] => (st, [])
  | st, r :: rest =>
    let p := stepRetry msgId st r
    let q := runRetry msgId p.1 rest
    (q.1, p.2 ++ q.2)

/-- Outcome of one `invokeClaudeCLI` call: the records it yields, and the
error message it throws at the end (after all records), if any. -/
structure InvocationOutcome where
  records : List CLIRecord
  error : Option String
deriving DecidableEq, Repr

/-- Return value of `handleStreaming`. -/
structure StreamingResult where
  streamedText : String
  cliSessionId : Option String
deriving DecidableEq, Repr

/-- The whole of `handleStreaming`: run the main loop on the first
invocation; if that invocation threw and no message_start frame was sent,
run the catch-retry loop on a second invocation, swallowing a second
failure by sending a synthetic error stream. The result of the model is
the returned value (always reached: every error is caught) paired with
the frames sent. -/
def handleStreamingRun (msgId : String) (a1 a2 : InvocationOutcome) :
    Except String StreamingResult × List Frame :=
  let p := runMain msgId initState a1.records
  match a1.error with
  | none => (Except.ok ⟨p.1.resultText, p.1.capturedSessionId⟩, p.2)
  | some _ =>
    if p.1.sentMessageStart then
      (Except.ok ⟨p.1.resultText, p.1.capturedSessionId⟩, p.2)
    else
      let q := runRetry msgId p.1 a2.records
      match a2.error with
      | none => (Except.ok ⟨q.1.resultText, q.1.capturedSessionId⟩, p.2 ++ q.2)
      | some e =>
          (Except.ok ⟨q.1.resultText, q.1.capturedSessionId⟩,
           p.2 ++ q.2 ++ syntheticFrames msgId ("Error: " ++ e))

/-- One iteration of the record loop of `handleNonStreaming`: accumulate
(resultText, capturedSessionId). The non-streaming loop has no
parent_tool_use_id filter; on a result record the buffer takes precedence
when non-empty. -/
def nsStep : String × Option String → CLIRecord → String × Option String
  | (resultText, captured), CLIRecord.result sid r =>
    let captured1 := jsOrOpt sid captured
    let resultText1 :=
      match r with
      | some s => if resultText = "" then (if s = "" then resultText else s) else resultText
      | none => resultText
    (resultText1, captured1)
  | (resultText, captured), CLIRecord.streamEvent sid _parent ev =>
    let captured1 := jsOrOpt sid captured
    match ev with
    | SSEvent.contentBlockDelta _ (DeltaPayload.textDelta t) => (resultText ++ t, captured1)
    | _ => (resultText, captured1)
  | acc, CLIRecord.otherRecord => acc

/-- Process one attempt of `handleNonStreaming`: resultText restarts at
the empty string each attempt, capturedSessionId is threaded across
attempts. -/
def nsProcess (captured0 : Option String) (records : List CLIRecord) : String × Option String :=
  records.foldl nsStep ("", captured0)

/-- Result of the `handleNonStreaming` retry loop: the sequence of
sessionId arguments actually passed to `invokeClaudeCLI`, and either the
final (resultText, capturedSessionId) or the last thrown error. -/
structure NSOutcome where
  invocations : List (Option String)
  outcome : Except String (String × Option String)
deriving Repr

/-- The sessionId used from the second attempt on: cleared when a truthy
cliSessionId was attached to the first attempt, otherwise unchanged. -/
def retrySessionId (cliSid : Option String) : Option String :=
  if jsTruthy cliSid then none else cliSid

/-- The whole of `handleNonStreaming` (MAX_RETRIES = 2, so up to three
attempts): attempt 0 uses the given cliSessionId, later attempts drop it;
each attempt processes its records (yielded before any terminal throw)
and either returns or falls through to the next attempt. -/
def handleNonStreamingRun (cliSid : Option String) (o0 o1 o2 : InvocationOutcome) : NSOutcome :=
  let r0 := nsProcess none o0.records
  match o0.error with
  | none => ⟨[cliSid], Except.ok r0⟩
  | some _ =>
    let s1 := retrySessionId cliSid
    let r1 := nsProcess r0.2 o1.records
    match o1.error with
    | none => ⟨[cliSid, s1], Except.ok r1⟩
    | some _ =>
      let r2 := nsProcess r1.2 o2.records
      match o2.error with
      | none => ⟨[cliSid, s1, s1], Except.ok r2⟩
      | some e => ⟨[cliSid, s1, s1], Except.error e⟩

/-- A session record of the session store (session-store.ts). -/
structure SessionData where
  cliSessionId : String
  externalId : String
  createdAt : Nat
  lastActivity : Nat
  messageCount : Nat
deriving DecidableEq, Repr

/-- The in-memory map of the session store, as an association list with
at most one binding per external id. -/
def Store : Type := List (String × SessionData)

instance : DecidableEq Store := by unfold Store; infer_instance

/-- Map lookup. -/
def lookupSession : Store → String → Option SessionData
  | [], _ => none
  | (k, v) :: rest, key => if k = key then some v else lookupSession rest key

/-- Map deletion (at most one binding per key, so removing the first
match is Map.delete). -/
def eraseSession : Store → String → Store
  | [], _ => []
  | (k, v) :: rest, key => if k = key then rest else (k, v) :: eraseSession rest key

/-- In-place mutation performed by `SessionStore.set` on an existing
record: replace the cliSessionId, refresh lastActivity, bump
messageCount. -/
def updateSession : Store → String → String → Nat → Store
  | [], _, _, _ => []
  | (k, v) :: rest, key, sid, now =>
    if k = key then
      (k, { v with cliSessionId := sid, lastActivity := now,
                   messageCount := v.messageCount + 1 }) :: rest
    else (k, v) :: updateSession rest key sid now

/-- `SessionStore.set(externalId, cliSessionId)`: update an existing
record in place, or insert a fresh one. -/
def storeSet (now : Nat) (store : Store) (externalId cliSessionId : String) : Store :=
  match lookupSession store externalId with
  | some _ => updateSession store externalId cliSessionId now
  | none =>
    (externalId,
     { cliSessionId := cliSessionId
       externalId := externalId
       createdAt := now
       lastActivity := now
       messageCount := 1 }) :: store

/-- `SessionStore.remove(externalId)`. -/
def storeRemove (store : Store) (externalId : String) : Store :=
  eraseSession store externalId

/-- `SessionStore.get(externalId)`: returns the record unless it is
absent or idle beyond the time-to-live; an expired record is deleted on
read. Returns the looked-up value together with the store after the
call. -/
def storeGet (ttlMs now : Nat) (store : Store) (externalId : String) :
    Option SessionData × Store :=
  match lookupSession store externalId with
  | none => (none, store)
  | some s =>
    if now - s.lastActivity > ttlMs then (none, eraseSession store externalId)
    else (some s, store)

/-- The non-streaming branch of `messagesHandler` (server.ts): look up
the session, run `handleNonStreaming`, on success store the captured CLI
session id if any; on a thrown error remove the stale record when a
cliSessionId had been attached. Returns the post-turn store and the
sessionId arguments passed to the invocations. -/
def nonStreamingTurn (ttlMs now : Nat) (store : Store) (externalId : String)
    (o0 o1 o2 : InvocationOutcome) : Store × List (Option String) :=
  let g := storeGet ttlMs now store externalId
  let cliSid := g.1.map (fun s => s.cliSessionId)
  let r := handleNonStreamingRun cliSid o0 o1 o2
  match r.outcome with
  | Except.ok t =>
    match t.2 with
    | some sid => (storeSet now g.2 externalId sid, r.invocations)
    | none => (g.2, r.invocations)
  | Except.error _ =>
    (if jsTruthy cliSid then storeRemove g.2 externalId else g.2, r.invocations)

/-- The streaming branch of `messagesHandler`: look up the session, run
`handleStreaming`, store the captured id on normal return; the catch
path (which would remove the record) runs only if `handleStreaming`
throws. -/
def streamingTurn (ttlMs now : Nat) (store : Store) (externalId msgId : String)
    (a1 a2 : InvocationOutcome) : Store :=
  let g := storeGet ttlMs now store externalId
  let cliSid := g.1.map (fun s => s.cliSessionId)
  match (handleStreamingRun msgId a1 a2).1 with
  | Except.ok r =>
    match r.cliSessionId with
    | some sid => storeSet now g.2 externalId sid
    | none => g.2
  | Except.error _ =>
    if jsTruthy cliSid then storeRemove g.2 externalId else g.2

/-- Byte-level string starts-with, mirroring JavaScript
`key.startsWith(p)`. -/
def strStartsWith (s p : String) : Bool := List.isPrefixOf p.data s.data

/-- The nested-session denylist actually applied before spawn in
claude-cli.ts: CLAUDECODE, CLAUDE_CODE_*, CLAUDE_AGENT_* and the exact
name CLAUDE_DEV. -/
def codeDenylist (key : String) : Bool :=
  key = "CLAUDECODE" || strStartsWith key "CLAUDE_CODE_" ||
    strStartsWith key "CLAUDE_AGENT_" || key = "CLAUDE_DEV"

/-- Modelled from the spec: the denylist as the claim states it —
CLAUDECODE and names starting with CLAUDE_CODE_ or CLAUDE_AGENT_ — to be
compared with `codeDenylist` from the source. -/
def claimDenylist (key : String) : Bool :=
  key = "CLAUDECODE" || strStartsWith key "CLAUDE_CODE_" ||
    strStartsWith key "CLAUDE_AGENT_"

/-- The environment passed to spawn: a copy of the base environment with
every denylisted variable deleted. -/
def sanitizeEnv (base : List (String × String)) : List (String × String) :=
  base.filter (fun kv => !codeDenylist kv.1)

/-- The exit check at the end of `invokeClaudeCLI`: an error (carrying
the exit code and the stderr text) is thrown only when the exit code is
non-zero AND the captured stderr text is non-empty. -/
def cliExitCheck (exitCode : Int) (stderrData : String) : Option (Int × String) :=
  if exitCode ≠ 0 ∧ stderrData ≠ "" then some (exitCode, stderrData) else none

/-- One line of subprocess stdout as the drainer distinguishes them: a
blank (whitespace-only) line, a non-JSON line, or a parsed JSON record. -/
inductive RawLine
  | blank
  | junk
  | json (r : CLIRecord)
deriving DecidableEq, Repr

/-- Whether the data handler skips the line (`part.trim()` falsy). -/
def isBlankLine : RawLine → Bool
  | RawLine.blank => true
  | _ => false

/-- JSON.parse outcome of a line. -/
def parseLine : RawLine → Option CLIRecord
  | RawLine.json r => some r
  | _ => none

/-- The rawLines array built by the stdout data handler: every line of
the byte stream whose trim is non-empty, in order. -/
def rawBufferLines (lines : List RawLine) : List RawLine :=
  lines.filter (fun l => !isBlankLine l)

/-- The records yielded by the readline loop: each parsed JSON line of
the portion of the stream the line reader saw. -/
def readlineYield : List RawLine → List CLIRecord
  | [] => []
  | RawLine.json r :: rest => r :: readlineYield rest
  | _ :: rest => readlineYield rest

/-- rawLineIndex after the readline loop: incremented once per readline
line, whether blank, non-JSON or yielded. -/
def rawLineIndexAfter (pre : List RawLine) : Nat := pre.length

/-- The records yielded by the drain phase: the rawLines buffer over the
whole stream (lines seen by readline plus lines that arrived in the
settle window), scanned from rawLineIndex, parsing each line. -/
def drainYield (pre late : List RawLine) : List CLIRecord :=
  ((rawBufferLines (pre ++ late)).drop (rawLineIndexAfter pre)).filterMap parseLine

/-- Everything the drainer yields to its consumer for a stream whose
readline phase saw `pre` and whose settle window accumulated `late`. -/
def drainerYield (pre late : List RawLine) : List CLIRecord :=
  readlineYield pre ++ drainYield pre late

/-- Frame classifier for the protocol invariant. -/
def isMessageStartFrame : Frame → Bool
  | Frame.messageStart _ => true
  | _ => false

/-- Number of message_start frames in an outbound sequence. -/
def msgStartCount (fs : List Frame) : Nat :=
  (fs.filter isMessageStartFrame).length

/-- Scan the outbound frames checking content-block bracketing: `none`
on a content_block_start while a block is open or a content_block_stop
while none is, otherwise `some` of the final open flag. -/
def blockScan : List Frame → Bool → Option Bool
  | [], openB => some openB
  | Frame.contentBlockStart _ _ :: rest, openB =>
    if openB then none else blockScan rest true
  | Frame.contentBlockStop _ :: rest, openB =>
    if openB then blockScan rest false else none
  | _ :: rest, openB => blockScan rest openB

/-- A record is the terminal result record. -/
def isResultRec : CLIRecord → Bool
  | CLIRecord.result _ _ => true
  | _ => false

/-- A top-level text-typed content_block_start record: the only record
shape the translator ever answers with a content_block_start frame. -/
def isEligibleStart : CLIRecord → Bool
  | CLIRecord.streamEvent _ none (SSEvent.contentBlockStart _ false) => true
  | _ => false

/-- A top-level content_block_stop record. -/
def isTopStop : CLIRecord → Bool
  | CLIRecord.streamEvent _ none (SSEvent.contentBlockStop _) => true
  | _ => false

/-- Pending flag of the alternation check after one record. -/
def nextPending (r : CLIRecord) (p : Bool) : Bool :=
  if isEligibleStart r then true else if isTopStop r then false else p

/-- No two top-level text content_block_start records occur without an
intervening top-level content_block_stop record. -/
def startsSeparated : List CLIRecord → Bool → Bool
  | [], _ => true
  | r :: rest, p =>
    (!(isEligibleStart r && p)) && startsSeparated rest (nextPending r p)

/-- Erase the per-instance message identifier from a frame, leaving
everything else intact. -/
def scrubFrame : Frame → Frame
  | Frame.messageStart _ => Frame.messageStart ""
  | f => f

/-- Concrete input refuting C1 as stated: a terminal result record that
is not last (the main loop never sets sentMessageStart after its
synthetic stream), followed by a message_start and two text
content_block_start records with no stop between them. -/
def c1CexInput : List CLIRecord :=
  [CLIRecord.result none (some "a"),
   CLIRecord.streamEvent none none SSEvent.messageStart,
   CLIRecord.streamEvent none none (SSEvent.contentBlockStart (some 0) false),
   CLIRecord.streamEvent none none (SSEvent.contentBlockStart (some 1) false),
   CLIRecord.result none (some "b")]

/-- A well-formed record prefix: one message_start, one text block with a
delta, properly closed. -/
def c1WitnessPre : List CLIRecord :=
  [CLIRecord.streamEvent none none SSEvent.messageStart,
   CLIRecord.streamEvent none none (SSEvent.contentBlockStart (some 0) false),
   CLIRecord.streamEvent none none (SSEvent.contentBlockDelta (some 0) (DeltaPayload.textDelta "hi")),
   CLIRecord.streamEvent none none (SSEvent.contentBlockStop (some 0))]

/-- Concrete input refuting C5 as stated: the buffer accumulates "ab",
then the terminal result record carries the shorter non-empty text "x". -/
def c5CexInput : List CLIRecord :=
  [CLIRecord.streamEvent none none SSEvent.messageStart,
   CLIRecord.streamEvent none none (SSEvent.contentBlockDelta (some 0) (DeltaPayload.textDelta "ab")),
   CLIRecord.result none (some "x")]

/-- A stored session record used in concrete witnesses. -/
def sessionW : SessionData :=
  { cliSessionId := "old"
    externalId := "chan"
    createdAt := 0
    lastActivity := 0
    messageCount := 1 }

/-- A one-entry session store used in concrete witnesses. -/
def storeW : Store := [("chan", sessionW)]

/-- Running the main loop over an appended list composes state and
concatenates frames. -/
theorem runMain_append (msgId : String) (xs ys : List CLIRecord) (st : TransState) :
    runMain msgId st (xs ++ ys) =
      ((runMain msgId (runMain msgId st xs).1 ys).1,
       (runMain msgId st xs).2 ++ (runMain msgId (runMain msgId st xs).1 ys).2) := by
  induction xs generalizing st with
  | nil => simp [runMain]
  | cons r rest ih => simp [runMain, ih]

/-- The bracket scan of a concatenation continues from the open flag the
first part ends with. -/
theorem blockScan_append (xs ys : List Frame) :
    ∀ b c : Bool, blockScan xs b = some c → blockScan (xs ++ ys) b = blockScan ys c := by
  induction xs with
  | nil =>
    intro b c h
    simp [blockScan] at h
    subst h
    simp
  | cons f rest ih =>
    intro b c h
    cases f <;> simp only [blockScan, List.cons_append] at h ⊢
    case contentBlockStart idx tu =>
      by_cases hb : b
      · simp [hb] at h
      · simp [hb] at h ⊢
        exact ih _ _ h
    case contentBlockStop idx =>
      by_cases hb : b
      · simp [hb] at h ⊢
        exact ih _ _ h
      · simp [hb] at h
    all_goals exact ih _ _ h

/-- message_start frames are counted additively over concatenation. -/
theorem msgStartCount_append (xs ys : List Frame) :
    msgStartCount (xs ++ ys) = msgStartCount xs + msgStartCount ys := by
  simp [msgStartCount, List.filter_append]

/-- One non-result record preserves the protocol invariant of the main
loop: the frames it sends scan cleanly from the old open flag to the new
one, the alternation pending flag stays an upper bound for the open flag,
an open block implies a sent start frame, and the step emits exactly the
message_start frames that the sentMessageStart transition records. -/
theorem stepMain_inv (msgId : String) (st : TransState) (r : CLIRecord) (p : Bool)
    (hres : isResultRec r = false)
    (hsep : (isEligibleStart r && p) = false)
    (hp : p = false → st.hasOpenBlock = false)
    (hg : st.hasOpenBlock = true → st.sentMessageStart = true) :
    blockScan (stepMain msgId st r).2 st.hasOpenBlock = some (stepMain msgId st r).1.hasOpenBlock ∧
    (nextPending r p = false → (stepMain msgId st r).1.hasOpenBlock = false) ∧
    ((stepMain msgId st r).1.hasOpenBlock = true → (stepMain msgId st r).1.sentMessageStart = true) ∧
    msgStartCount (stepMain msgId st r).2 =
      ((if (stepMain msgId st r).1.sentMessageStart then 1 else 0) -
        (if st.sentMessageStart then 1 else 0)) ∧
    (st.sentMessageStart = true → (stepMain msgId st r).1.sentMessageStart = true) := by
  cases r with
  | result sid rt => simp [isResultRec] at hres
  | otherRecord =>
    refine ⟨?_, ?_, ?_, ?_, ?_⟩ <;>
      cases hsm : st.sentMessageStart <;> cases hob : st.hasOpenBlock <;> cases hpp : p <;>
      simp_all [stepMain, blockScan, msgStartCount, isMessageStartFrame, nextPending,
        isEligibleStart, isTopStop]
  | streamEvent sid parent ev =>
    cases parent with
    | some pid =>
      refine ⟨?_, ?_, ?_, ?_, ?_⟩ <;>
        cases hsm : st.sentMessageStart <;> cases hob : st.hasOpenBlock <;> cases hpp : p <;>
        simp_all [stepMain, blockScan, msgStartCount, isMessageStartFrame, nextPending,
          isEligibleStart, isTopStop]
    | none =>
      cases ev with
      | contentBlockStart idx tu =>
        cases tu <;>
        refine ⟨?_, ?_, ?_, ?_, ?_⟩ <;>
          cases hsm : st.sentMessageStart <;> cases hob : st.hasOpenBlock <;> cases hpp : p <;>
          simp_all [stepMain, blockScan, msgStartCount, isMessageStartFrame, nextPending,
            isEligibleStart, isTopStop]
      | contentBlockDelta idx d =>
        cases d <;>
        refine ⟨?_, ?_, ?_, ?_, ?_⟩ <;>
          cases hsm : st.sentMessageStart <;> cases hob : st.hasOpenBlock <;> cases hpp : p <;>
          simp_all [stepMain, blockScan, msgStartCount, isMessageStartFrame, nextPending,
            isEligibleStart, isTopStop]
      | messageStart =>
        refine ⟨?_, ?_, ?_, ?_, ?_⟩ <;>
          cases hsm : st.sentMessageStart <;> cases hob : st.hasOpenBlock <;> cases hpp : p <;>
          simp_all [stepMain, blockScan, msgStartCount, isMessageStartFrame, nextPending,
            isEligibleStart, isTopStop]
      | contentBlockStop idx =>
        refine ⟨?_, ?_, ?_, ?_, ?_⟩ <;>
          cases hsm : st.sentMessageStart <;> cases hob : st.hasOpenBlock <;> cases hpp : p <;>
          simp_all [stepMain, blockScan, msgStartCount, isMessageStartFrame, nextPending,
            isEligibleStart, isTopStop]
      | messageDelta =>
        refine ⟨?_, ?_, ?_, ?_, ?_⟩ <;>
          cases hsm : st.sentMessageStart <;> cases hob : st.hasOpenBlock <;> cases hpp : p <;>
          simp_all [stepMain, blockScan, msgStartCount, isMessageStartFrame, nextPending,
            isEligibleStart, isTopStop]
      | messageStop =>
        refine ⟨?_, ?_, ?_, ?_, ?_⟩ <;>
          cases hsm : st.sentMessageStart <;> cases hob : st.hasOpenBlock <;> cases hpp : p <;>
          simp_all [stepMain, blockScan, msgStartCount, isMessageStartFrame, nextPending,
            isEligibleStart, isTopStop]
      | ping =>
        refine ⟨?_, ?_, ?_, ?_, ?_⟩ <;>
          cases hsm : st.sentMessageStart <;> cases hob : st.hasOpenBlock <;> cases hpp : p <;>
          simp_all [stepMain, blockScan, msgStartCount, isMessageStartFrame, nextPending,
            isEligibleStart, isTopStop]
      | otherEvent =>
        refine ⟨?_, ?_, ?_, ?_, ?_⟩ <;>
          cases hsm : st.sentMessageStart <;> cases hob : st.hasOpenBlock <;> cases hpp : p <;>
          simp_all [stepMain, blockScan, msgStartCount, isMessageStartFrame, nextPending,
            isEligibleStart, isTopStop]

/-- The main-loop invariant extended over a result-free, properly
alternating record prefix. -/
theorem runMain_inv (msgId : String) :
    ∀ (pre : List CLIRecord) (st : TransState) (p : Bool),
    (∀ x ∈ pre, isResultRec x = false) →
    startsSeparated pre p = true →
    (p = false → st.hasOpenBlock = false) →
    (st.hasOpenBlock = true → st.sentMessageStart = true) →
    blockScan (runMain msgId st pre).2 st.hasOpenBlock =
      some (runMain msgId st pre).1.hasOpenBlock ∧
    ((runMain msgId st pre).1.hasOpenBlock = true →
      (runMain msgId st pre).1.sentMessageStart = true) ∧
    msgStartCount (runMain msgId st pre).2 =
      ((if (runMain msgId st pre).1.sentMessageStart then 1 else 0) -
        (if st.sentMessageStart then 1 else 0)) ∧
    (st.sentMessageStart = true → (runMain msgId st pre).1.sentMessageStart = true) := by
  intro pre
  induction pre with
  | nil =>
    intro st p hres hsep hp hg
    refine ⟨by simp [runMain, blockScan], by simpa [runMain] using hg, ?_, fun h => by simpa [runMain] using h⟩
    simp [runMain, msgStartCount]
  | cons r rest ih =>
    intro st p hres hsep hp hg
    have hres1 : isResultRec r = false := hres r (by simp)
    have hresR : ∀ x ∈ rest, isResultRec x = false := fun x hx => hres x (by simp [hx])
    have hsep1 : (isEligibleStart r && p) = false := by
      simp only [startsSeparated, Bool.and_eq_true] at hsep
      have := hsep.1
      cases h : (isEligibleStart r && p) with
      | false => rfl
      | true => simp [h] at this
    have hsepR : startsSeparated rest (nextPending r p) = true := by
      simp only [startsSeparated, Bool.and_eq_true] at hsep
      exact hsep.2
    obtain ⟨hscan1, hpend1, hg1, hcnt1, hmono1⟩ :=
      stepMain_inv msgId st r p hres1 hsep1 hp hg
    obtain ⟨hscanR, hgR, hcntR, hmonoR⟩ :=
      ih (stepMain msgId st r).1 (nextPending r p) hresR hsepR hpend1 hg1
    have hrm : runMain msgId st (r :: rest) =
        ((runMain msgId (stepMain msgId st r).1 rest).1,
         (stepMain msgId st r).2 ++ (runMain msgId (stepMain msgId st r).1 rest).2) := by
      simp [runMain]
    rw [hrm]
    refine ⟨?_, hgR, ?_, fun h => hmonoR (hmono1 h)⟩
    · exact (blockScan_append _ _ _ _ hscan1).trans hscanR
    · rw [msgStartCount_append, hcnt1, hcntR]
      have ha := hmono1
      have hb := hmonoR
      cases h1 : st.sentMessageStart <;>
        cases h2 : (stepMain msgId st r).1.sentMessageStart <;>
        cases h3 : (runMain msgId (stepMain msgId st r).1 rest).1.sentMessageStart <;>
        simp_all

/-- C1 (amended): for every input sequence whose terminal result record
appears exactly once as the last record, and in which no two top-level
text content_block_start records occur without an intervening top-level
content_block_stop record, the outbound frame sequence of the streaming
translator contains exactly one message_start frame and its
content_block_start and content_block_stop frames alternate in matched
pairs. -/
theorem c1_amended (msgId : String) (pre : List CLIRecord) (sid rt : Option String)
    (hres : ∀ x ∈ pre, isResultRec x = false)
    (hsep : startsSeparated pre false = true) :
    msgStartCount (streamFrames msgId (pre ++ [CLIRecord.result sid rt])) = 1 ∧
    blockScan (streamFrames msgId (pre ++ [CLIRecord.result sid rt])) false = some false := by
  obtain ⟨hscan, hg, hcnt, hmono⟩ :=
    runMain_inv msgId pre initState false hres hsep (fun _ => rfl)
      (fun h => by simp [initState] at h)
  have hframes : streamFrames msgId (pre ++ [CLIRecord.result sid rt]) =
      (runMain msgId initState pre).2 ++
        (stepMain msgId (runMain msgId initState pre).1 (CLIRecord.result sid rt)).2 := by
    rw [streamFrames, runMain_append]
    simp [runMain]
  have hinit : initState.hasOpenBlock = false := rfl
  have hinitsm : initState.sentMessageStart = false := rfl
  rw [hinit] at hscan
  rw [hframes]
  cases hsm : (runMain msgId initState pre).1.sentMessageStart with
  | false =>
    have hob : (runMain msgId initState pre).1.hasOpenBlock = false := by
      cases hob : (runMain msgId initState pre).1.hasOpenBlock
      · rfl
      · exact absurd (hg hob) (by simp [hsm])
    have hstep : msgStartCount
        (stepMain msgId (runMain msgId initState pre).1 (CLIRecord.result sid rt)).2 = 1 := by
      simp [stepMain, hsm, syntheticFrames, msgStartCount, isMessageStartFrame]
    have hstepScan : blockScan
        (stepMain msgId (runMain msgId initState pre).1 (CLIRecord.result sid rt)).2 false =
        some false := by
      simp [stepMain, hsm, syntheticFrames, blockScan]
    constructor
    · rw [msgStartCount_append, hcnt, hstep]
      simp [hsm, hinitsm]
    · rw [hob] at hscan
      exact (blockScan_append _ _ _ _ hscan).trans hstepScan
  | true =>
    have hstep : msgStartCount
        (stepMain msgId (runMain msgId initState pre).1 (CLIRecord.result sid rt)).2 = 0 := by
      cases hob : (runMain msgId initState pre).1.hasOpenBlock <;>
        simp [stepMain, hsm, hob, msgStartCount, isMessageStartFrame]
    have hstepScan : blockScan
        (stepMain msgId (runMain msgId initState pre).1 (CLIRecord.result sid rt)).2
        (runMain msgId initState pre).1.hasOpenBlock = some false := by
      cases hob : (runMain msgId initState pre).1.hasOpenBlock <;>
        simp [stepMain, hsm, hob, blockScan]
    constructor
    · rw [msgStartCount_append, hcnt, hstep]
      simp [hsm, hinitsm]
    · exact (blockScan_append _ _ _ _ hscan).trans hstepScan

/-- C1 (counterexample): on an input whose result record is not last,
the translator emits two message_start frames (the synthetic branch of
the main loop never sets sentMessageStart), and two consecutive text
content_block_start records are both forwarded with no stop between
them, so the claimed invariant fails as stated. -/
theorem c1_counterexample :
    msgStartCount (streamFrames "m" c1CexInput) = 2 ∧
    blockScan (streamFrames "m" c1CexInput) false = none := by
  constructor <;> rfl

/-- C1 (witness): the amended theorem applied to a concrete well-formed
stream: message_start, one text block with a delta, a stop, then the
terminal result. -/
theorem c1_witness :
    msgStartCount (streamFrames "m" (c1WitnessPre ++ [CLIRecord.result none (some "hi")])) = 1 ∧
    blockScan (streamFrames "m" (c1WitnessPre ++ [CLIRecord.result none (some "hi")])) false =
      some false :=
  c1_amended "m" c1WitnessPre none (some "hi") (by decide) (by decide)

/-- A step of the main loop that sends no frame leaves sentMessageStart
and resultText unchanged. -/
theorem stepMain_silent (msgId : String) (st : TransState) (r : CLIRecord)
    (h : (stepMain msgId st r).2 = []) :
    (stepMain msgId st r).1.sentMessageStart = st.sentMessageStart ∧
    (stepMain msgId st r).1.resultText = st.resultText := by
  cases r with
  | otherRecord => exact ⟨rfl, rfl⟩
  | result sid rt =>
    cases hsm : st.sentMessageStart <;>
      cases hob : st.hasOpenBlock <;>
      simp [stepMain, hsm, hob, syntheticFrames] at h
  | streamEvent sid parent ev =>
    cases parent with
    | some pid => constructor <;> simp [stepMain]
    | none =>
      cases ev with
      | contentBlockStart idx tu =>
        cases tu <;> cases hsm : st.sentMessageStart <;> simp_all [stepMain]
      | contentBlockDelta idx d =>
        cases d <;> cases hsm : st.sentMessageStart <;> simp_all [stepMain]
      | _ => cases hsm : st.sentMessageStart <;> cases hob : st.hasOpenBlock <;> simp_all [stepMain]

/-- A run of the main loop that sends no frame at all leaves
sentMessageStart and resultText unchanged. -/
theorem runMain_silent (msgId : String) :
    ∀ (recs : List CLIRecord) (st : TransState),
    (runMain msgId st recs).2 = [] →
    (runMain msgId st recs).1.sentMessageStart = st.sentMessageStart ∧
    (runMain msgId st recs).1.resultText = st.resultText := by
  intro recs
  induction recs with
  | nil => intro st _; exact ⟨rfl, rfl⟩
  | cons r rest ih =>
    intro st h
    have hsplit : (stepMain msgId st r).2 = [] ∧
        (runMain msgId (stepMain msgId st r).1 rest).2 = [] := by
      have : (stepMain msgId st r).2 ++ (runMain msgId (stepMain msgId st r).1 rest).2 = [] := by
        simpa [runMain] using h
      exact List.append_eq_nil.mp this
    obtain ⟨h1, h2⟩ := stepMain_silent msgId st r hsplit.1
    obtain ⟨h3, h4⟩ := ih (stepMain msgId st r).1 hsplit.2
    have hrm : (runMain msgId st (r :: rest)).1 = (runMain msgId (stepMain msgId st r).1 rest).1 := by
      simp [runMain]
    rw [hrm]
    exact ⟨h3.trans h1, h4.trans h2⟩

/-- C7: if the translator has emitted no frame before the terminal
result record arrives, it emits the complete synthesized six-frame
envelope — message_start, content_block_start, one content_block_delta,
content_block_stop, message_delta, message_stop — and the delta text is
exactly the terminal result text. -/
theorem c7_synthetic_envelope (msgId : String) (pre : List CLIRecord)
    (sid : Option String) (t : String)
    (h : streamFrames msgId pre = []) :
    streamFrames msgId (pre ++ [CLIRecord.result sid (some t)]) = syntheticFrames msgId t := by
  obtain ⟨hsm, hrt⟩ := runMain_silent msgId pre initState h
  have hsm0 : (runMain msgId initState pre).1.sentMessageStart = false := by
    rw [hsm]; rfl
  have hrt0 : (runMain msgId initState pre).1.resultText = "" := by
    rw [hrt]; rfl
  have hframes : streamFrames msgId (pre ++ [CLIRecord.result sid (some t)]) =
      (runMain msgId initState pre).2 ++
        (stepMain msgId (runMain msgId initState pre).1 (CLIRecord.result sid (some t))).2 := by
    rw [streamFrames, runMain_append]
    simp [runMain]
  have h2 : (runMain msgId initState pre).2 = [] := h
  rw [hframes, h2]
  by_cases ht : t = ""
  · subst ht
    simp [stepMain, hsm0, hrt0, jsOrStr]
  · simp [stepMain, hsm0, hrt0, jsOrStr, ht]

/-- C7 (witness): a bare terminal result with no preceding records
produces exactly the synthesized envelope. -/
theorem c7_witness :
    streamFrames "m" [CLIRecord.result (some "s") (some "hello")] =
      syntheticFrames "m" "hello" := by
  have h := c7_synthetic_envelope "m" [] (some "s") "hello" rfl
  simpa using h

/-- The state transition of a main-loop step does not depend on the
message identifier, and its frames agree once the identifier is erased. -/
theorem stepMain_msgId (id1 id2 : String) (st : TransState) (r : CLIRecord) :
    (stepMain id1 st r).1 = (stepMain id2 st r).1 ∧
    (stepMain id1 st r).2.map scrubFrame = (stepMain id2 st r).2.map scrubFrame := by
  cases r with
  | otherRecord => exact ⟨rfl, rfl⟩
  | result sid rt =>
    cases hsm : st.sentMessageStart <;> cases hob : st.hasOpenBlock <;>
      simp [stepMain, hsm, hob, syntheticFrames, scrubFrame]
  | streamEvent sid parent ev =>
    cases parent with
    | some pid => exact ⟨rfl, rfl⟩
    | none =>
      cases ev with
      | contentBlockStart idx tu =>
        cases tu <;> cases hsm : st.sentMessageStart <;>
          simp [stepMain, hsm, scrubFrame]
      | contentBlockDelta idx d =>
        cases d <;> cases hsm : st.sentMessageStart <;>
          simp [stepMain, hsm, scrubFrame]
      | _ =>
        cases hsm : st.sentMessageStart <;> cases hob : st.hasOpenBlock <;>
          simp [stepMain, hsm, hob, scrubFrame]

/-- Over a whole run, the final state does not depend on the message
identifier, and the frame sequences agree after erasing it. -/
theorem runMain_msgId (id1 id2 : String) :
    ∀ (recs : List CLIRecord) (st : TransState),
    (runMain id1 st recs).1 = (runMain id2 st recs).1 ∧
    (runMain id1 st recs).2.map scrubFrame = (runMain id2 st recs).2.map scrubFrame := by
  intro recs
  induction recs with
  | nil => intro st; exact ⟨rfl, rfl⟩
  | cons r rest ih =>
    intro st
    obtain ⟨hs, hf⟩ := stepMain_msgId id1 id2 st r
    obtain ⟨hs2, hf2⟩ := ih (stepMain id1 st r).1
    constructor
    · show (runMain id1 (stepMain id1 st r).1 rest).1 = (runMain id2 (stepMain id2 st r).1 rest).1
      rw [← hs]
      exact hs2.trans (by rw [hs])
    · show ((stepMain id1 st r).2 ++ (runMain id1 (stepMain id1 st r).1 rest).2).map scrubFrame =
        ((stepMain id2 st r).2 ++ (runMain id2 (stepMain id2 st r).1 rest).2).map scrubFrame
      rw [List.map_append, List.map_append, hf]
      congr 1
      rw [hf2, hs]

/-- C8 (amended): replaying the same raw record sequence through two
fresh translator instances yields outbound frame sequences that are
identical except for the per-instance message identifier carried in
message_start frames. -/
theorem c8_amended (id1 id2 : String) (recs : List CLIRecord) :
    (streamFrames id1 recs).map scrubFrame = (streamFrames id2 recs).map scrubFrame :=
  (runMain_msgId id1 id2 recs initState).2

/-- C8 (counterexample): two fresh translator instances carry
independently generated message identifiers, so on the same input their
outbound sequences differ in the message_start frame — the claim that
every frame, including the message identifier, is equal fails. -/
theorem c8_counterexample :
    streamFrames "msg_a" [CLIRecord.result none (some "hi")] ≠
      streamFrames "msg_b" [CLIRecord.result none (some "hi")] := by
  decide

/-- C5 (amended): the terminal result record's non-empty text field
takes precedence in the streaming translator — the running buffer is
used only when the result text is absent or empty — while the
non-streaming loop prefers the buffer whenever it is non-empty. -/
theorem c5_amended (msgId : String) (pre : List CLIRecord) (sid : Option String)
    (rt : String) (c0 : Option String) :
    ((runMain msgId initState (pre ++ [CLIRecord.result sid (some rt)])).1.resultText =
      if rt = "" then (runMain msgId initState pre).1.resultText else rt) ∧
    ((runMain msgId initState (pre ++ [CLIRecord.result sid none])).1.resultText =
      (runMain msgId initState pre).1.resultText) ∧
    ((nsProcess c0 (pre ++ [CLIRecord.result sid (some rt)])).1 =
      if (nsProcess c0 pre).1 = "" then (if rt = "" then "" else rt)
      else (nsProcess c0 pre).1) ∧
    ((nsProcess c0 (pre ++ [CLIRecord.result sid none])).1 = (nsProcess c0 pre).1) := by
  refine ⟨?_, ?_, ?_, ?_⟩
  · rw [runMain_append]
    cases hsm : (runMain msgId initState pre).1.sentMessageStart <;>
      cases hob : (runMain msgId initState pre).1.hasOpenBlock <;>
      by_cases ht : rt = "" <;>
      simp [runMain, stepMain, hsm, hob, jsOrStr, ht]
  · rw [runMain_append]
    cases hsm : (runMain msgId initState pre).1.sentMessageStart <;>
      cases hob : (runMain msgId initState pre).1.hasOpenBlock <;>
      simp [runMain, stepMain, hsm, hob, jsOrStr]
  · show ((pre ++ [CLIRecord.result sid (some rt)]).foldl nsStep ("", c0)).1 = _
    rw [List.foldl_append]
    by_cases hb : ((pre.foldl nsStep ("", c0)).1 : String) = "" <;>
      by_cases ht : rt = "" <;>
      simp [nsStep, nsProcess, hb, ht]
  · show ((pre ++ [CLIRecord.result sid none]).foldl nsStep ("", c0)).1 = _
    rw [List.foldl_append]
    simp [nsStep, nsProcess]

/-- C5 (counterexample): on a stream whose forwarded deltas accumulate
the buffer "ab" and whose terminal result record carries the shorter
non-empty text "x", the streaming turn reports "x", not the buffer —
refuting the claim that the buffer wins whenever the result text is
shorter. -/
theorem c5_counterexample :
    (handleStreamingRun "m" ⟨c5CexInput, none⟩ ⟨[], none⟩).1 =
      Except.ok ⟨"x", none⟩ ∧
    (runMain "m" initState (c5CexInput.take 2)).1.resultText = "ab" ∧
    ("x" : String).length < ("ab" : String).length ∧ ("x" : String) ≠ "ab" := by
  refine ⟨rfl, rfl, by decide, by decide⟩

/-- C4 (amended): on normal completion with a non-zero exit code, an
error carrying the exit code and stderr text is surfaced exactly when
the captured stderr text is non-empty; with empty stderr no failure is
surfaced at all — the invocation completes as if successful. -/
theorem c4_amended (code : Int) (err : String) (hc : code ≠ 0) :
    (err ≠ "" → cliExitCheck code err = some (code, err)) ∧
    (err = "" → cliExitCheck code err = none) := by
  constructor
  · intro he
    simp [cliExitCheck, hc, he]
  · intro he
    simp [cliExitCheck, he]

/-- C4 (witness): exit code 1 with stderr "boom" surfaces the failure;
exit code 1 with empty stderr surfaces nothing. -/
theorem c4_witness :
    cliExitCheck 1 "boom" = some (1, "boom") ∧ cliExitCheck 1 "" = none :=
  ⟨(c4_amended 1 "boom" (by decide)).1 (by decide),
   (c4_amended 1 "" (by decide)).2 rfl⟩

/-- C4 (counterexample): the claim asserts that a non-zero exit code
with no captured stderr text also surfaces a failure; the code throws
nothing in that case. -/
theorem c4_counterexample : (cliExitCheck 1 "").isSome = false := by
  simp [cliExitCheck]

/-- C6 (amended): the environment passed to spawn contains no variable
matching the denylist actually applied by the code — CLAUDECODE,
CLAUDE_CODE_*, CLAUDE_AGENT_* and additionally the exact name
CLAUDE_DEV — and every base variable not matching that denylist is
passed through unchanged. -/
theorem c6_amended (base : List (String × String)) (kv : String × String) :
    (kv ∈ sanitizeEnv base → codeDenylist kv.1 = false ∧ kv ∈ base) ∧
    (kv ∈ base → codeDenylist kv.1 = false → kv ∈ sanitizeEnv base) := by
  constructor
  · intro h
    rw [sanitizeEnv, List.mem_filter] at h
    exact ⟨by simpa using h.2, h.1⟩
  · intro h1 h2
    rw [sanitizeEnv, List.mem_filter]
    exact ⟨h1, by simp [h2]⟩

/-- C6 (witness): a variable outside the denylist survives
sanitization unchanged, per the amended theorem. -/
theorem c6_witness :
    ("PATH", "x") ∈ sanitizeEnv [("PATH", "x"), ("CLAUDE_DEV", "1")] :=
  (c6_amended [("PATH", "x"), ("CLAUDE_DEV", "1")] ("PATH", "x")).2 (by simp) (by decide)

/-- C6 (counterexample): CLAUDE_DEV does not match the denylist the
claim states, yet the code strips it from the spawned environment — so
a base variable outside the claimed denylist is not passed through. -/
theorem c6_counterexample :
    claimDenylist "CLAUDE_DEV" = false ∧
    sanitizeEnv [("CLAUDE_DEV", "1")] = [] := by
  constructor <;> decide

/-- C3: at the failing input — the readline phase saw a blank line and
one would-be-drained window holds two complete JSON lines — the drainer
yields only the second late record: rawLineIndex counts the blank line
but the raw buffer filtered it out, so the drain scan starts one entry
too far and the first late line is lost, contrary to the code comments
promising that nothing is lost. -/
theorem c3_late_line_dropped :
    drainerYield [RawLine.blank]
      [RawLine.json (CLIRecord.result none (some "one")),
       RawLine.json (CLIRecord.result none (some "two"))] =
      [CLIRecord.result none (some "two")] ∧
    CLIRecord.result none (some "one") ∉
      drainerYield [RawLine.blank]
        [RawLine.json (CLIRecord.result none (some "one")),
         RawLine.json (CLIRecord.result none (some "two"))] := by
  constructor
  · rfl
  · decide

/-- Updating an existing binding rewrites exactly that binding. -/
theorem lookup_updateSession (store : Store) (E sid : String) (now : Nat) :
    lookupSession (updateSession store E sid now) E =
      (lookupSession store E).map
        (fun v => { v with cliSessionId := sid, lastActivity := now,
                           messageCount := v.messageCount + 1 }) := by
  induction store with
  | nil => rfl
  | cons kv rest ih =>
    obtain ⟨k, v⟩ := kv
    by_cases hk : k = E <;> simp [updateSession, lookupSession, hk, ih]

/-- After `SessionStore.set`, the store maps the external id to a record
carrying the given cliSessionId. -/
theorem lookup_storeSet (now : Nat) (store : Store) (E sid : String) :
    ∃ s2, lookupSession (storeSet now store E sid) E = some s2 ∧ s2.cliSessionId = sid := by
  cases h : lookupSession store E with
  | none =>
    refine ⟨⟨sid, E, now, now, 1⟩, ?_, rfl⟩
    simp [storeSet, h, lookupSession]
  | some v =>
    refine ⟨{ v with cliSessionId := sid, lastActivity := now, messageCount := v.messageCount + 1 }, ?_, rfl⟩
    simp [storeSet, h, lookup_updateSession]

/-- A key outside the key set of the store looks up to none. -/
theorem lookup_eq_none (store : Store) (E : String)
    (h : E ∉ store.map Prod.fst) : lookupSession store E = none := by
  induction store with
  | nil => rfl
  | cons kv rest ih =>
    obtain ⟨k, v⟩ := kv
    simp only [List.map_cons, List.mem_cons, not_or] at h
    have hk : k ≠ E := fun he => h.1 he.symm
    simp [lookupSession, hk, ih h.2]

/-- Deleting a key from a store with distinct keys removes its binding. -/
theorem lookup_eraseSession (store : Store) (E : String)
    (hnd : (store.map Prod.fst).Nodup) :
    lookupSession (eraseSession store E) E = none := by
  induction store with
  | nil => rfl
  | cons kv rest ih =>
    obtain ⟨k, v⟩ := kv
    simp only [List.map_cons, List.nodup_cons] at hnd
    by_cases hk : k = E
    · subst hk
      simpa [eraseSession] using lookup_eq_none rest k hnd.1
    · simp [eraseSession, lookupSession, hk, ih hnd.2]

/-- C9: a lookup of an external id held in the store returns none and
deletes the record exactly when the idle time since its last activity
exceeds the time-to-live; otherwise it returns the stored record and
leaves the store unchanged. -/
theorem c9_lazy_expiry (ttl now : Nat) (store : Store) (E : String) (s : SessionData)
    (hs : lookupSession store E = some s)
    (hnd : (store.map Prod.fst).Nodup) :
    (now - s.lastActivity > ttl →
      storeGet ttl now store E = (none, eraseSession store E) ∧
      lookupSession (storeGet ttl now store E).2 E = none) ∧
    (¬(now - s.lastActivity > ttl) →
      storeGet ttl now store E = (some s, store)) := by
  constructor
  · intro hexp
    have hget : storeGet ttl now store E = (none, eraseSession store E) := by
      simp [storeGet, hs, hexp]
    exact ⟨hget, by rw [hget]; exact lookup_eraseSession store E hnd⟩
  · intro hfresh
    simp [storeGet, hs, hfresh]

/-- C9 (witness): with a time-to-live of 10 and last activity 0, a read
at time 100 expires and deletes the record, and a read at time 5 returns
it and leaves the store unchanged. -/
theorem c9_witness :
    (storeGet 10 100 storeW "chan" = (none, []) ∧
      lookupSession (storeGet 10 100 storeW "chan").2 "chan" = none) ∧
    storeGet 10 5 storeW "chan" = (some sessionW, storeW) := by
  refine ⟨?_, ?_⟩
  · have h := (c9_lazy_expiry 10 100 storeW "chan" sessionW rfl (by decide)).1 (by decide)
    exact ⟨by simpa [storeW, eraseSession] using h.1, h.2⟩
  · exact (c9_lazy_expiry 10 5 storeW "chan" sessionW rfl (by decide)).2 (by decide)

/-- C2: with a stored record mapping external id E to internal id I, the
first invocation of the turn carries resume identifier I; when it fails,
the second invocation carries none; and when the second succeeds with a
newly captured internal id, the store entry for E is updated to that id,
so the failed I is not used again. -/
theorem c2_resume_fallback (ttl now : Nat) (store : Store) (E I newId : String)
    (s : SessionData) (o0 o1 o2 : InvocationOutcome)
    (hs : lookupSession store E = some s)
    (hI : s.cliSessionId = I)
    (hIne : I ≠ "")
    (hfresh : ¬(now - s.lastActivity > ttl))
    (hfail : o0.error.isSome = true)
    (hok : o1.error = none)
    (hcap : (nsProcess (nsProcess none o0.records).2 o1.records).2 = some newId) :
    (nonStreamingTurn ttl now store E o0 o1 o2).2 = [some I, none] ∧
    ∃ s2, lookupSession (nonStreamingTurn ttl now store E o0 o1 o2).1 E = some s2 ∧
      s2.cliSessionId = newId := by
  obtain ⟨e0, he0⟩ := Option.isSome_iff_exists.mp hfail
  have hget : storeGet ttl now store E = (some s, store) := by
    simp [storeGet, hs, hfresh]
  have hrun : handleNonStreamingRun (some I) o0 o1 o2 =
      ⟨[some I, none], Except.ok (nsProcess (nsProcess none o0.records).2 o1.records)⟩ := by
    simp [handleNonStreamingRun, he0, hok, retrySessionId, jsTruthy, hIne]
  have hturn : nonStreamingTurn ttl now store E o0 o1 o2 =
      (storeSet now store E newId, [some I, none]) := by
    simp [nonStreamingTurn, hget, hI, hrun, hcap]
  rw [hturn]
  exact ⟨rfl, lookup_storeSet now store E newId⟩

/-- C2 (witness): a concrete turn for external id chan holding internal
id old: the failed resume attempt is followed by a fresh attempt without
a resume id, and the store ends up mapping chan to the newly returned
internal id new. -/
theorem c2_witness :
    (nonStreamingTurn 100 50 storeW "chan" ⟨[], some "boom"⟩
      ⟨[CLIRecord.result (some "new") (some "hi")], none⟩ ⟨[], none⟩).2 =
      [some "old", none] ∧
    ∃ s2, lookupSession (nonStreamingTurn 100 50 storeW "chan" ⟨[], some "boom"⟩
      ⟨[CLIRecord.result (some "new") (some "hi")], none⟩ ⟨[], none⟩).1 "chan" = some s2 ∧
      s2.cliSessionId = "new" :=
  c2_resume_fallback 100 50 storeW "chan" "old" "new" sessionW ⟨[], some "boom"⟩
    ⟨[CLIRecord.result (some "new") (some "hi")], none⟩ ⟨[], none⟩ rfl rfl (by decide)
    (by decide) rfl rfl rfl

/-- C10: the streaming handler returns normally for every pair of
invocation outcomes — every invocation error is swallowed inside it — so
the route handler's catch path is never reached by a streaming failure
and a live session record for the external id survives the turn. -/
theorem c10_no_error_propagation (msgId : String) (a1 a2 : InvocationOutcome)
    (ttl now : Nat) (store : Store) (E : String) (s : SessionData)
    (hs : lookupSession store E = some s)
    (hfresh : ¬(now - s.lastActivity > ttl)) :
    (∃ r, (handleStreamingRun msgId a1 a2).1 = Except.ok r) ∧
    (∃ s2, lookupSession (streamingTurn ttl now store E msgId a1 a2) E = some s2) := by
  have hok : ∃ r, (handleStreamingRun msgId a1 a2).1 = Except.ok r := by
    unfold handleStreamingRun
    cases h1 : a1.error with
    | none => exact ⟨_, rfl⟩
    | some e1 =>
      cases h2 : a2.error <;>
        by_cases hsm : (runMain msgId initState a1.records).1.sentMessageStart <;>
        simp [hsm]
  have hget : storeGet ttl now store E = (some s, store) := by
    simp [storeGet, hs, hfresh]
  obtain ⟨r, hr⟩ := hok
  refine ⟨⟨r, hr⟩, ?_⟩
  cases hc : r.cliSessionId with
  | some sid =>
    have h3 : streamingTurn ttl now store E msgId a1 a2 = storeSet now store E sid := by
      simp [streamingTurn, hget, hr, hc]
    obtain ⟨s2, hs2, _⟩ := lookup_storeSet now store E sid
    exact ⟨s2, by rw [h3]; exact hs2⟩
  | none =>
    have h3 : streamingTurn ttl now store E msgId a1 a2 = store := by
      simp [streamingTurn, hget, hr, hc]
    exact ⟨s, by rw [h3]; exact hs⟩

/-- C10 (witness): both invocation attempts fail outright, yet the
handler returns normally and the stored record for chan survives. -/
theorem c10_witness :
    (∃ r, (handleStreamingRun "m" ⟨[], some "boom"⟩ ⟨[], some "boom2"⟩).1 = Except.ok r) ∧
    (∃ s2, lookupSession
      (streamingTurn 100 50 storeW "chan" "m" ⟨[], some "boom"⟩ ⟨[], some "boom2"⟩)
      "chan" = some s2) :=
  c10_no_error_propagation "m" ⟨[], some "boom"⟩ ⟨[], some "boom2"⟩ 100 50 storeW "chan"
    sessionW rfl (by decide)

end CCAdapter